import Mathlib

/-!
Verification of the PyDew Valley (GatorAI Camp 2025) codebase: a shallow
embedding in Lean 4 of the dialogue system (`dialogue_system.py`), the AI
dialogue manager (`ai_dialogue_manager.py`), the trader-shop emotion logic
(`level.py`) and the emotion-detection buffer and camera acquisition loop
(`emotion_detector.py`, `main.py`), together with proofs and refutations of
the specification's claims about them.

Python strings are modelled as `List Char` where their character content
matters (splitting, stripping, substring tests) and as `String` where only
equality matters.  Machine-level concerns (pygame rendering, threads,
actual OpenCV and OpenAI calls) are abstracted into explicit oracle
parameters, exactly at the external call sites of the source.
-/

set_option autoImplicit false
set_option linter.unusedVariables false

namespace GatorAI

/-! ### Emotion history buffer (`main.py` line 86, `emotion_detector.py` line 240)

`main.py` creates `self.emotions_deque = deque(maxlen=5)`; the detector
thread appends with `self.emotions_deque.append(emotion)`.  A
`collections.deque` with `maxlen` discards from the opposite (left) end
when an append overflows the capacity.  We model the deque as a `List`
whose head is the leftmost (oldest) element. -/

/-- One `append` on a `collections.deque` with `maxlen = maxlen`:
append on the right, then discard from the left down to capacity. -/
def pushDeque (maxlen : Nat) (dq : List String) (x : String) : List String :=
  let dq' := dq ++ [x]
  if maxlen < dq'.length then dq'.drop (dq'.length - maxlen) else dq'

/-- A sequence of appends starting from a given buffer. -/
def pushAll (maxlen : Nat) (dq : List String) (xs : List String) : List String :=
  xs.foldl (pushDeque maxlen) dq

/-! ### Trader-shop emotion logic (`level.py` lines 298-335, `Level.toggle_shop`)

`toggle_shop` reads `recent_emotions = list(self.emotions_deque) if
self.emotions_deque else ["neutral"]`, takes `current_emotion =
recent_emotions[0] if recent_emotions else "neutral"`, and, when the deque
is empty, appends one `random.choice` of the four test emotions and uses it
as `current_emotion`.  The random choice is modelled by an explicit index
`choice : Fin 4`.  The returned pair is (the emotion put into the dialogue
request context, the deque afterwards). -/

/-- `test_emotions = ["happy", "surprised", "neutral", "excited"]` in
`Level.toggle_shop`. -/
def test_emotions : List String := ["happy", "surprised", "neutral", "excited"]

/-- The emotion-selection part of `Level.toggle_shop`. -/
def toggleShopEmotion (dq : List String) (choice : Fin 4) : String × List String :=
  let recent_emotions := if dq.isEmpty then ["neutral"] else dq
  let current_emotion :=
    if recent_emotions.isEmpty then "neutral" else recent_emotions.head!
  if dq.isEmpty || dq.length == 0 then
    let test_emotion := test_emotions.get ⟨choice.val, by simp [test_emotions]⟩
    (test_emotion, pushDeque 5 dq test_emotion)
  else
    (current_emotion, dq)

/-! ### Camera acquisition (`emotion_detector.py` lines 145-197, 258-265)

`EmotionDetector.run` iterates `camera_backends = [cv2.CAP_DSHOW,
cv2.CAP_MSMF, 0]`; for each backend it constructs a `VideoCapture`, checks
`isOpened()`, reads one warm-up frame, and accepts (`break`) only when the
read succeeds with a non-None frame; every failure path calls
`cap.release()` when a capture object exists and sets `cap = None`.  If the
loop ends without acceptance the function returns.  The behaviour of the
external OpenCV calls for each backend is an oracle `outcome`; the model
counts constructed capture handles and release calls. -/

inductive Backend
  | dshow
  | msmf
  | defaultBackend
deriving DecidableEq

/-- `camera_backends = [cv2.CAP_DSHOW, cv2.CAP_MSMF, 0]`. -/
def camera_backends : List Backend := [.dshow, .msmf, .defaultBackend]

/-- What the external OpenCV calls do for one backend attempt. -/
inductive AttemptResult
  | raisesOnOpen   -- `cv2.VideoCapture(...)` raises; no capture object bound
  | notOpened      -- constructed but `isOpened()` is false; released in the else branch
  | readFails      -- opened but the warm-up `read()` returns no frame; released
  | raisesOnRead   -- opened but `read()` raises; released in the except handler
  | frameOk        -- opened and the warm-up frame is good; accepted via `break`
deriving DecidableEq

structure CameraAcq where
  accepted : Option Backend
  handlesOpened : Nat
  handlesReleased : Nat
deriving DecidableEq

/-- The backend fall-through loop of `EmotionDetector.run`, with handle
accounting: `handlesOpened` counts constructed `VideoCapture` objects,
`handlesReleased` counts `release()` calls. -/
def tryBackends (outcome : Backend → AttemptResult) :
    List Backend → Nat → Nat → CameraAcq
  | [], o, r => ⟨none, o, r⟩
  | b :: bs, o, r =>
    match outcome b with
    | .raisesOnOpen => tryBackends outcome bs o r
    | .notOpened    => tryBackends outcome bs (o + 1) (r + 1)
    | .readFails    => tryBackends outcome bs (o + 1) (r + 1)
    | .raisesOnRead => tryBackends outcome bs (o + 1) (r + 1)
    | .frameOk      => ⟨some b, o + 1, r⟩

/-- Camera acquisition: run the fall-through loop over the configured
backends; `accepted = none` models the clean `return` with no camera. -/
def acquireCamera (outcome : Backend → AttemptResult) : CameraAcq :=
  tryBackends outcome camera_backends 0 0

/-! ### Python string primitives

Python strings are `List Char`; `split(" ")`, `strip()` and the `in`
substring test are implemented with Python semantics. -/

abbrev PyStr := List Char

/-- The whitespace characters stripped by Python `str.strip()` (ASCII). -/
def isPySpace (c : Char) : Bool :=
  c = ' ' || c = '\t' || c = '\n' || c = '\r' || c = '\x0b' || c = '\x0c'

/-- Python `s.strip()`. -/
def pyStrip (s : PyStr) : PyStr :=
  ((s.dropWhile isPySpace).reverse.dropWhile isPySpace).reverse

/-- Python `text.split(" ")` (single-space separator, empty fields kept):
accumulator-based scan; `acc` holds the current field reversed. -/
def pySplitSpace : PyStr → PyStr → List PyStr
  | [], acc => [acc.reverse]
  | c :: rest, acc =>
    if c = ' ' then acc.reverse :: pySplitSpace rest []
    else pySplitSpace rest (c :: acc)

def pySplit (s : PyStr) : List PyStr := pySplitSpace s []

/-- `needle` is a prefix of `hay` (character-wise). -/
def startsWithChars : PyStr → PyStr → Bool
  | [], _ => true
  | _ :: _, [] => false
  | a :: as, b :: bs => a == b && startsWithChars as bs

/-- Python `needle in hay` for strings. -/
def containsChars (hay needle : PyStr) : Bool :=
  match hay with
  | [] => startsWithChars needle []
  | c :: t => startsWithChars needle (c :: t) || containsChars t needle

/-! ### AI dialogue manager (`ai_dialogue_manager.py`)

State: `self.fallback_mode` and whether `self.client` is a constructed
client (`hasClient`).  The external world — the credentials file, the
client constructor, the remote chat-completion call — enters as explicit
oracle values at exactly the source call sites. -/

structure MgrState where
  fallback_mode : Bool
  hasClient : Bool
deriving DecidableEq

/-- What reading and JSON-parsing the credentials file yields
(`_load_api_credentials`, lines 46-65). -/
inductive CredFile
  | absent                                        -- FileNotFoundError
  | malformedJson                                 -- json.JSONDecodeError
  | otherError                                    -- any other exception
  | parsed (apiKey : Option String) (baseUrl : Option String)
deriving DecidableEq

/-- `AIDialogueManager._load_api_credentials`: `data.get` yields `None` for
a missing field, and `if not api_key or not base_url` rejects `None` and
the empty string (Python falsiness). -/
def load_api_credentials : CredFile → Option (String × String)
  | .absent => none
  | .malformedJson => none
  | .otherError => none
  | .parsed apiKey baseUrl =>
    match apiKey, baseUrl with
    | some k, some u => if k.isEmpty || u.isEmpty then none else some (k, u)
    | _, _ => none

/-- `AIDialogueManager.__init__` (lines 18-44): starts with
`client = None`, `fallback_mode = True`; returns early when the openai
module is missing; on loaded credentials constructs the client
(`connectOk` models whether `openai.OpenAI(...)` succeeds — on an
exception the assignment to `self.client` never happens and
`fallback_mode` stays `True`). -/
def initAIDialogueManager (openaiAvailable : Bool) (file : CredFile)
    (connectOk : Bool) : MgrState :=
  let st : MgrState := ⟨true, false⟩
  if !openaiAvailable then st
  else
    match load_api_credentials file with
    | some _ => if connectOk then ⟨false, true⟩ else ⟨true, false⟩
    | none => st

/-- Outcome of the remote `chat.completions.create` call.  `ok none`
models a response whose `message.content` is `None` (the subsequent
`.strip()` raises `AttributeError`, caught by the handler); `raises`
covers timeouts, transport errors and responses with no choices. -/
inductive RemoteOutcome
  | ok (content : Option PyStr)
  | raises
deriving DecidableEq

/-- The keys of the `emotion_guidance` dictionary in
`generate_npc_dialogue` (lines 90-97): the closed emotion vocabulary the
manager has specific guidance for. -/
def emotion_guidance_keys : List String :=
  ["happy", "sad", "angry", "surprised", "fearful", "neutral"]

/-- `AIDialogueManager._get_fallback_dialogue` (lines 143-172). -/
def get_fallback_dialogue (character_name player_context emotion : PyStr) : PyStr :=
  if containsChars character_name ("Merchant Pete".data) then
    if emotion = ("happy".data) then
      ("I can see you\x27re in great spirits today! That positive energy will help your crops grow beautifully. What can I get you?").data
    else if emotion = ("sad".data) then
      ("I notice you seem a bit down, friend. Remember, every farmer has tough days, but I\x27ve got just the things to brighten your mood!").data
    else if emotion = ("angry".data) then
      ("Take a deep breath, friend. Farming can be frustrating sometimes, but you\x27re doing better than you think. Let me help you out.").data
    else if emotion = ("surprised".data) then
      ("You look amazed! There\x27s always something wonderful to discover in farming. I\x27ve got some interesting items you might like!").data
    else if emotion = ("fearful".data) then
      ("Don\x27t worry, you\x27re safe here with me. Farming can feel overwhelming at first, but I\x27ll help you get what you need.").data
    else if containsChars player_context ("rich".data) then
      ("Welcome back, esteemed farmer! Your success is impressive. I have some premium items that might interest you.").data
    else if containsChars player_context ("new".data)
        || containsChars player_context ("starting".data) then
      ("Hello there! New to farming? Don\x27t worry, I\x27ve got just the tools and seeds to get you started on your adventure!").data
    else
      ("Welcome! It\x27s a fine day for farming, isn\x27t it? Let me know if you need anything.").data
  else if emotion = ("happy".data) then
    ("I can see you\x27re having a great day! How wonderful!").data
  else if emotion = ("sad".data) then
    ("You seem a bit down, friend. I hope things look up soon!").data
  else
    ("Hello there! Nice to see you around the farm today.").data

/-- `AIDialogueManager.generate_npc_dialogue` (lines 67-141), returning
the generated text together with the manager state after the call (the
method assigns no attribute, so every branch carries the entry state
through).  On the success path the source returns
`response.choices[0].message.content.strip()`. -/
def generate_npc_dialogue (st : MgrState) (remote : RemoteOutcome)
    (character_name player_context emotion : PyStr) : PyStr × MgrState :=
  if st.fallback_mode || !st.hasClient then
    (get_fallback_dialogue character_name player_context emotion, st)
  else
    match remote with
    | .ok (some content) => (pyStrip content, st)
    | .ok none => (get_fallback_dialogue character_name player_context emotion, st)
    | .raises => (get_fallback_dialogue character_name player_context emotion, st)

/-! ### Dialogue system (`dialogue_system.py`)

State of a `DialogueSystem`: `active`, `current_dialogue` (a list of
pages, each a list of line strings), `dialogue_index`, whether an
`on_finish_callback` is stored, plus an instrumentation counter
`finish_calls` for the number of callback invocations.  The pygame font
metric `self.font.size(s)[0]` is an oracle `font : PyStr → Nat`. -/

structure DlgState where
  active : Bool
  current_dialogue : List (List PyStr)
  dialogue_index : Nat
  on_finish_callback : Bool
  finish_calls : Nat
deriving DecidableEq

/-- The word-wrapping loop of `DialogueSystem._wrap_text` (lines 108-122):
fold over the words with the accumulated `lines` and `current_line`. -/
def wrapLoop (font : PyStr → Nat) (max_width : Nat) :
    List PyStr → List PyStr → PyStr → List PyStr
  | [], lines, current_line =>
    if (pyStrip current_line).isEmpty then lines else lines ++ [pyStrip current_line]
  | word :: words, lines, current_line =>
    let test_line := current_line ++ word ++ [' ']
    if font test_line < max_width then
      wrapLoop font max_width words lines test_line
    else
      let lines' :=
        if (pyStrip current_line).isEmpty then lines else lines ++ [pyStrip current_line]
      wrapLoop font max_width words lines' (word ++ [' '])

/-- `for i in range(0, len(lines), lines_per_page): pages.append(lines[i:i+4])`
with `lines_per_page = 4`; fuel-based so that it computes by `decide`
(the fuel `l.length` always suffices: each step drops at least one
element of a non-empty list). -/
def chunkPagesAux {α : Type} : Nat → List α → List (List α)
  | 0, _ => []
  | _, [] => []
  | n + 1, x :: rest => ((x :: rest).take 4) :: chunkPagesAux n ((x :: rest).drop 4)

def chunkPages {α : Type} (l : List α) : List (List α) :=
  chunkPagesAux l.length l

/-- `DialogueSystem._wrap_text` (lines 106-132): split on single spaces,
wrap into lines, group into pages of four lines, and fall back to the
single placeholder page when no page was produced. -/
def wrap_text (font : PyStr → Nat) (text : PyStr) (max_width : Nat) :
    List (List PyStr) :=
  let words := pySplit text
  let lines := wrapLoop font max_width words [] []
  let pages := chunkPages lines
  if pages.isEmpty then [[("No dialogue available.".data)]] else pages

/-- `DialogueSystem.end_dialogue` (lines 140-147): deactivate, clear, and
invoke-then-clear the stored callback when present. -/
def end_dialogue (st : DlgState) : DlgState :=
  let st₁ : DlgState :=
    { st with active := false, current_dialogue := [], dialogue_index := 0 }
  if st₁.on_finish_callback then
    { st₁ with finish_calls := st₁.finish_calls + 1, on_finish_callback := false }
  else st₁

/-- `DialogueSystem.next_line` (lines 134-138). -/
def next_line (st : DlgState) : DlgState :=
  let st₁ : DlgState := { st with dialogue_index := st.dialogue_index + 1 }
  if st₁.current_dialogue.length ≤ st₁.dialogue_index then end_dialogue st₁ else st₁

/-- `text_box_rect.width - 40 = 1200 - 40`, the wrap width used by
`start_dialogue`. -/
def text_wrap_width : Nat := 1200 - 40

/-- `DialogueSystem.start_dialogue` (lines 72-97) for a session whose
dialogue line `dialogue_line` has been produced (by the AI manager or the
static fallback — both branches feed their text through `_wrap_text`):
activate, reset the index, store the callback, paginate, and end at once
when pagination produced nothing. -/
def start_dialogue (font : PyStr → Nat) (st : DlgState) (dialogue_line : PyStr)
    (hasCallback : Bool) : DlgState :=
  let st₁ : DlgState :=
    { st with active := true, dialogue_index := 0,
              on_finish_callback := hasCallback,
              current_dialogue := wrap_text font dialogue_line text_wrap_width }
  if st₁.current_dialogue.isEmpty then end_dialogue st₁ else st₁

/-- A concrete font-width oracle for closed evaluations: ten pixels per
character. -/
def sample_font (s : PyStr) : Nat := 10 * s.length

/-- The `DialogueSystem` state right after `__init__`. -/
def init_dlg_state : DlgState := ⟨false, [], 0, false, 0⟩

theorem pushDeque_eq_drop (maxlen : Nat) (dq : List String) (x : String) :
    pushDeque maxlen dq x = (dq ++ [x]).drop (dq.length + 1 - maxlen) := by
  unfold pushDeque
  simp only [List.length_append, List.length_cons, List.length_nil]
  split
  · rfl
  · have : dq.length + 1 - maxlen = 0 := by omega
    rw [this, List.drop_zero]

theorem pushDeque_length (maxlen : Nat) (dq : List String) (x : String)
    (h : dq.length ≤ maxlen) :
    (pushDeque maxlen dq x).length = min (dq.length + 1) maxlen := by
  rw [pushDeque_eq_drop maxlen dq x, List.length_drop]
  simp only [List.length_append, List.length_cons, List.length_nil]
  omega

theorem drop_append_of_le {α : Type} (l₁ l₂ : List α) (n : Nat) (h : n ≤ l₁.length) :
    (l₁ ++ l₂).drop n = l₁.drop n ++ l₂ := by
  rw [List.drop_append_eq_append_drop]
  have : n - l₁.length = 0 := by omega
  rw [this, List.drop_zero]

/-- Folding appends from any in-capacity buffer keeps only the last
`maxlen` elements of the total stream, in order. -/
theorem pushAll_eq_drop (maxlen : Nat) (xs : List String) :
    ∀ dq : List String, dq.length ≤ maxlen →
      pushAll maxlen dq xs = (dq ++ xs).drop (dq.length + xs.length - maxlen) := by
  induction xs with
  | nil =>
    intro dq h
    simp only [pushAll, List.foldl_nil, List.append_nil, List.length_nil, Nat.add_zero]
    have : dq.length - maxlen = 0 := by omega
    rw [this, List.drop_zero]
  | cons x xs ih =>
    intro dq h
    have hstep : pushAll maxlen dq (x :: xs) = pushAll maxlen (pushDeque maxlen dq x) xs := by
      simp [pushAll]
    have hlen : (pushDeque maxlen dq x).length ≤ maxlen := by
      rw [pushDeque_length maxlen dq x h]; omega
    rw [hstep, ih (pushDeque maxlen dq x) hlen, pushDeque_eq_drop maxlen dq x]
    have hd : dq.length + 1 - maxlen ≤ (dq ++ [x]).length := by simp
    rw [← drop_append_of_le (dq ++ [x]) xs _ hd, List.drop_drop]
    simp only [List.length_drop, List.length_append, List.length_cons, List.length_nil,
      List.append_assoc, List.singleton_append]
    congr 1
    omega

/-- **C4.** For every sequence of `5 + k` pushes (`k ≥ 0`) into the
capacity-5 emotion history buffer (`deque(maxlen=5)` in `main.py`,
appended by `emotion_detector.py`), a snapshot afterward has length
exactly 5 and equals the last 5 pushed labels in push order — oldest
entries evicted FIFO. -/
theorem emotion_buffer_last_five (pushes : List String) (k : Nat)
    (h : pushes.length = 5 + k) :
    (pushAll 5 [] pushes).length = 5 ∧ pushAll 5 [] pushes = pushes.drop k := by
  have heq := pushAll_eq_drop 5 pushes [] (by simp)
  simp only [List.length_nil, List.nil_append, Nat.zero_add] at heq
  refine ⟨?_, ?_⟩
  · rw [heq, List.length_drop]; omega
  · rw [heq]; congr 1; omega

/-- Witness for C4, which is also the end-to-end scenario of the claim:
pushing the six labels into a capacity-5 buffer yields the last five. -/
theorem emotion_buffer_last_five_witness :
    pushAll 5 [] ["happy", "sad", "angry", "surprised", "fearful", "neutral"]
      = ["sad", "angry", "surprised", "fearful", "neutral"] :=
  ((emotion_buffer_last_five
      ["happy", "sad", "angry", "surprised", "fearful", "neutral"] 1
      (by decide)).2).trans (by decide)

/-- **C2 (refuted as stated; the code contradicts its own comment).**
`Level.toggle_shop` says "Get the most recent emotion" but reads
`recent_emotions[0]`, the OLDEST entry of the deque: with the buffer
`["happy", "sad"]` (where `"sad"` was pushed last), the emotion placed
into the dialogue request context is `"happy"`, not the most recently
pushed label `"sad"`. -/
theorem toggle_shop_uses_oldest_emotion :
    (toggleShopEmotion ["happy", "sad"] 0).1 = "happy" ∧
    (["happy", "sad"] : List String).getLast (by decide) = "sad" ∧
    (toggleShopEmotion ["happy", "sad"] 0).1 ≠ "sad" := by decide

/-- **C10.** When the emotion history buffer is empty, `toggle_shop`
appends exactly one label drawn from
`test_emotions = [happy, surprised, neutral, excited]` and uses that very
label as the request-context emotion; in particular `"excited"` is a
possible value, and it lies outside the closed six-label
`emotion_guidance` vocabulary of the dialogue manager. -/
theorem toggle_shop_empty_buffer_injects_test_emotion :
    (∀ c : Fin 4,
      (toggleShopEmotion [] c).2 = [(toggleShopEmotion [] c).1] ∧
      (toggleShopEmotion [] c).1 ∈ test_emotions) ∧
    (toggleShopEmotion [] 3).1 = "excited" ∧
    "excited" ∉ emotion_guidance_keys := by decide

/-- **C5.** Camera acquisition tries the three configured backends in
priority order and accepts exactly the first one whose warm-up read
yields a real frame (`accepted` equals `find?` over the backend list);
whenever no backend yields a frame, acquisition returns no camera (the
thread returns cleanly) and every constructed capture handle has been
released. -/
theorem camera_acquisition_fall_through (outcome : Backend → AttemptResult) :
    (acquireCamera outcome).accepted
      = camera_backends.find? (fun b => outcome b == .frameOk) ∧
    ((∀ b ∈ camera_backends, outcome b ≠ .frameOk) →
      (acquireCamera outcome).accepted = none ∧
      (acquireCamera outcome).handlesOpened
        = (acquireCamera outcome).handlesReleased) := by
  cases h1 : outcome .dshow <;> cases h2 : outcome .msmf <;>
    cases h3 : outcome .defaultBackend <;>
    simp [acquireCamera, tryBackends, camera_backends, List.find?, h1, h2, h3] <;>
    decide

/-- Witness for C5: with a double making every backend fail (never
opened), acquisition returns no camera and opened = released. -/
theorem camera_acquisition_fall_through_witness :
    (acquireCamera (fun _ => .notOpened)).accepted = none ∧
    (acquireCamera (fun _ => .notOpened)).handlesOpened
      = (acquireCamera (fun _ => .notOpened)).handlesReleased :=
  (camera_acquisition_fall_through (fun _ => .notOpened)).2 (by decide)

/-- Every branch of `_get_fallback_dialogue` returns a non-empty literal. -/
theorem get_fallback_dialogue_ne_nil (n c e : PyStr) :
    get_fallback_dialogue n c e ≠ [] := by
  unfold get_fallback_dialogue
  split_ifs <;> decide

/-- **C3 counterexample.** In Online mode, a remote call that succeeds
with whitespace-only message content makes `generate_npc_dialogue` return
the stripped content — the empty string — so `generate` does not always
return non-empty text. -/
theorem generate_blank_content_returns_empty :
    (generate_npc_dialogue ⟨false, true⟩ (RemoteOutcome.ok (some (" ".data)))
      ("Merchant Pete".data) ("shopping".data) ("neutral".data)).1 = [] := by
  decide

/-- **C3 (amended).** `generate_npc_dialogue` is total (never raises):
it returns non-empty text in fallback mode, when no client exists, and on
every remote failure (exception or `None` content); on a successful
remote call it returns the stripped response content, which is empty only
when that content was whitespace-only. -/
theorem generate_nonempty_except_blank_success (st : MgrState)
    (remote : RemoteOutcome) (n c e : PyStr) :
    ((st.fallback_mode = true ∨ st.hasClient = false ∨
        remote = RemoteOutcome.raises ∨ remote = RemoteOutcome.ok none) →
      (generate_npc_dialogue st remote n c e).1 ≠ []) ∧
    (∀ s, remote = RemoteOutcome.ok (some s) → st.fallback_mode = false →
      st.hasClient = true →
      (generate_npc_dialogue st remote n c e).1 = pyStrip s) := by
  have hf := get_fallback_dialogue_ne_nil n c e
  constructor
  · intro h
    unfold generate_npc_dialogue
    rcases h with h | h | h | h
    · simp [h, hf]
    · simp [h, hf]
    · subst h; split <;> simp [hf]
    · subst h; split <;> simp [hf]
  · intro s hs h1 h2
    subst hs
    simp [generate_npc_dialogue, h1, h2]

/-- Witness for C3 (amended): offline generation yields non-empty text;
an online success yields exactly the stripped remote content. -/
theorem generate_nonempty_except_blank_success_witness :
    (generate_npc_dialogue ⟨true, false⟩ RemoteOutcome.raises
      ("Merchant Pete".data) ("shopping".data) ("neutral".data)).1 ≠ [] ∧
    (generate_npc_dialogue ⟨false, true⟩
      (RemoteOutcome.ok (some ("hi there".data)))
      ("Merchant Pete".data) ("shopping".data) ("neutral".data)).1
        = pyStrip ("hi there".data) :=
  ⟨(generate_nonempty_except_blank_success ⟨true, false⟩ RemoteOutcome.raises
      ("Merchant Pete".data) ("shopping".data) ("neutral".data)).1 (Or.inl rfl),
   (generate_nonempty_except_blank_success ⟨false, true⟩
      (RemoteOutcome.ok (some ("hi there".data)))
      ("Merchant Pete".data) ("shopping".data) ("neutral".data)).2
      ("hi there".data) rfl rfl rfl⟩

/-- **C6.** After an Online initialization, one failing generate request
returns the fallback text for that call only: the manager state is
unchanged — `fallback_mode` stays `false` — and equals the state after a
successful call, so nothing but the returned text differs. -/
theorem generate_failure_frame (st : MgrState) (n c e s : PyStr)
    (h1 : st.fallback_mode = false) (h2 : st.hasClient = true) :
    (generate_npc_dialogue st RemoteOutcome.raises n c e).2 = st ∧
    (generate_npc_dialogue st RemoteOutcome.raises n c e).2.fallback_mode = false ∧
    (generate_npc_dialogue st RemoteOutcome.raises n c e).1
      = get_fallback_dialogue n c e ∧
    (generate_npc_dialogue st RemoteOutcome.raises n c e).2
      = (generate_npc_dialogue st (RemoteOutcome.ok (some s)) n c e).2 := by
  simp [generate_npc_dialogue, h1, h2]

/-- Witness for C6 at a concrete Online state. -/
theorem generate_failure_frame_witness :
    (generate_npc_dialogue ⟨false, true⟩ RemoteOutcome.raises
      ("Merchant Pete".data) ("shopping".data) ("happy".data)).2
      = ⟨false, true⟩ ∧
    (generate_npc_dialogue ⟨false, true⟩ RemoteOutcome.raises
      ("Merchant Pete".data) ("shopping".data) ("happy".data)).2.fallback_mode
      = false ∧
    (generate_npc_dialogue ⟨false, true⟩ RemoteOutcome.raises
      ("Merchant Pete".data) ("shopping".data) ("happy".data)).1
      = get_fallback_dialogue ("Merchant Pete".data) ("shopping".data)
          ("happy".data) ∧
    (generate_npc_dialogue ⟨false, true⟩ RemoteOutcome.raises
      ("Merchant Pete".data) ("shopping".data) ("happy".data)).2
      = (generate_npc_dialogue ⟨false, true⟩
          (RemoteOutcome.ok (some ("ok".data)))
          ("Merchant Pete".data) ("shopping".data) ("happy".data)).2 :=
  generate_failure_frame ⟨false, true⟩ ("Merchant Pete".data)
    ("shopping".data) ("happy".data) ("ok".data) rfl rfl

/-- **C7.** For an absent credentials file, malformed JSON, or a parsed
file missing the api-key or base-url field, `AIDialogueManager.__init__`
resolves to Offline mode — `fallback_mode = true` and no client — and
(being a total function of the oracles) never raises to the caller. -/
theorem init_credentials_failure_offline (openaiAvailable connectOk : Bool)
    (file : CredFile)
    (h : file = CredFile.absent ∨ file = CredFile.malformedJson ∨
         ∃ k u, (k = none ∨ u = none) ∧ file = CredFile.parsed k u) :
    initAIDialogueManager openaiAvailable file connectOk = ⟨true, false⟩ := by
  have hload : load_api_credentials file = none := by
    rcases h with h | h | ⟨k, u, hku, h⟩
    · subst h; rfl
    · subst h; rfl
    · subst h
      rcases hku with hk | hu
      · subst hk; cases u <;> rfl
      · subst hu; cases k <;> rfl
  cases openaiAvailable <;> simp [initAIDialogueManager, hload]

/-- Witness for C7: a missing credentials file yields Offline mode. -/
theorem init_credentials_failure_offline_witness :
    initAIDialogueManager true CredFile.absent true = ⟨true, false⟩ :=
  init_credentials_failure_offline true true CredFile.absent (Or.inl rfl)

/-- With enough fuel, every chunk produced by the pagination loop has at
most four lines. -/
theorem chunkPagesAux_mem_length_le {α : Type} :
    ∀ (n : Nat) (l : List α), ∀ p ∈ chunkPagesAux n l, p.length ≤ 4 := by
  intro n
  induction n with
  | zero => intro l p hp; simp [chunkPagesAux] at hp
  | succ n ih =>
    intro l p hp
    cases l with
    | nil => simp [chunkPagesAux] at hp
    | cons x rest =>
      simp only [chunkPagesAux, List.mem_cons] at hp
      rcases hp with h | h
      · subst h; simp [List.length_take]
      · exact ih _ p h

/-- Stripping an all-whitespace string yields the empty string. -/
theorem pyStrip_allSpace (s : PyStr) (h : s.all isPySpace = true) :
    pyStrip s = [] := by
  have h1 : s.dropWhile isPySpace = [] := by
    rw [List.dropWhile_eq_nil_iff]
    exact fun x hx => List.all_eq_true.mp h x hx
  simp [pyStrip, h1]

/-- Splitting an all-whitespace string on spaces yields only
all-whitespace fields. -/
theorem pySplitSpace_allSpace (s : PyStr) :
    ∀ acc : PyStr, s.all isPySpace = true → acc.all isPySpace = true →
      ∀ w ∈ pySplitSpace s acc, w.all isPySpace = true := by
  induction s with
  | nil =>
    intro acc _ hacc w hw
    simp [pySplitSpace] at hw
    subst hw
    simpa [List.all_reverse] using hacc
  | cons c rest ih =>
    intro acc hs hacc w hw
    rw [List.all_cons, Bool.and_eq_true] at hs
    obtain ⟨hc, hrest⟩ := hs
    by_cases h : c = ' '
    · simp [pySplitSpace, h] at hw
      rcases hw with h1 | h1
      · subst h1; simpa [List.all_reverse] using hacc
      · exact ih [] hrest rfl w h1
    · simp [pySplitSpace, h] at hw
      exact ih (c :: acc) hrest (by simp [List.all_cons, hc, hacc]) w hw

/-- The wrapping loop produces no line when every word is whitespace-only
and the pending line is whitespace-only. -/
theorem wrapLoop_allSpace (font : PyStr → Nat) (mw : Nat) (words : List PyStr) :
    ∀ current : PyStr,
      (∀ w ∈ words, w.all isPySpace = true) → current.all isPySpace = true →
      wrapLoop font mw words [] current = [] := by
  induction words with
  | nil =>
    intro current _ hc
    simp [wrapLoop, pyStrip_allSpace current hc]
  | cons w ws ih =>
    intro current hw hc
    have hw1 : w.all isPySpace = true := hw w (List.mem_cons_self _ _)
    have hws : ∀ v ∈ ws, v.all isPySpace = true :=
      fun v hv => hw v (List.mem_cons_of_mem _ hv)
    have hsp : ([' '] : PyStr).all isPySpace = true := by decide
    have htest : (current ++ w ++ [' ']).all isPySpace = true := by
      simp only [List.all_append, hc, hw1, hsp, Bool.and_self]
    simp only [wrapLoop]
    split
    · exact ih _ hws htest
    · simp only [pyStrip_allSpace current hc, List.isEmpty_nil, if_true]
      exact ih _ hws (by simp only [List.all_append, hw1, hsp, Bool.and_self])

/-- `_wrap_text` on empty or whitespace-only text returns exactly the
single placeholder page. -/
theorem wrap_text_blank (font : PyStr → Nat) (mw : Nat) (text : PyStr)
    (h : text.all isPySpace = true) :
    wrap_text font text mw = [[("No dialogue available.".data)]] := by
  have hwords : ∀ w ∈ pySplit text, w.all isPySpace = true :=
    pySplitSpace_allSpace text [] h rfl
  have hlines : wrapLoop font mw (pySplit text) [] [] = [] :=
    wrapLoop_allSpace font mw (pySplit text) [] hwords rfl
  simp [wrap_text, hlines, chunkPages, chunkPagesAux]

/-- **C9.** For every font metric, input text and maximum width,
`_wrap_text` returns a non-empty list of pages with at most four lines
per page, and on empty or whitespace-only text it returns exactly one
page holding the single placeholder line, so `start_dialogue` always has
at least one page to display. -/
theorem wrap_text_always_pages (font : PyStr → Nat) (text : PyStr) (mw : Nat) :
    wrap_text font text mw ≠ [] ∧
    (∀ p ∈ wrap_text font text mw, p.length ≤ 4) ∧
    (text.all isPySpace = true →
      wrap_text font text mw = [[("No dialogue available.".data)]]) := by
  refine ⟨?_, ?_, fun h => wrap_text_blank font mw text h⟩
  · simp only [wrap_text]
    split
    · simp
    · rename_i hne
      simpa [List.isEmpty_iff] using hne
  · simp only [wrap_text]
    split
    · intro p hp
      simp at hp
      subst hp
      decide
    · intro p hp
      exact chunkPagesAux_mem_length_le _ _ p hp

/-- Witness for C9: wrapping a single space yields the placeholder
page (non-empty, one line). -/
theorem wrap_text_always_pages_witness :
    wrap_text sample_font (" ".data) 1160 = [[("No dialogue available.".data)]] :=
  (wrap_text_always_pages sample_font (" ".data) 1160).2.2 (by decide)

/-- **C1 counterexample.** Starting a dialogue with empty generated text
does NOT end the session: `_wrap_text` always yields the placeholder
page, so the `if not self.current_dialogue` guard never fires — after
`start_dialogue` with empty text the session is still Active and the
stored callback has not been invoked. -/
theorem start_dialogue_empty_text_stays_active :
    (start_dialogue sample_font init_dlg_state [] true).active = true ∧
    (start_dialogue sample_font init_dlg_state [] true).finish_calls = 0 := by
  decide

/-- **C1 (amended).** A session started with empty or whitespace-only
generated text remains Active, holding exactly the single placeholder
page `[["No dialogue available."]]`; `onFinish` is not invoked
synchronously (the invocation count is unchanged and the callback is
still stored, to fire on a later `advance()`), and the session is never
left Active with zero pages to show. -/
theorem start_dialogue_blank_text_placeholder (font : PyStr → Nat)
    (st : DlgState) (text : PyStr) (cb : Bool)
    (h : text.all isPySpace = true) :
    (start_dialogue font st text cb).active = true ∧
    (start_dialogue font st text cb).current_dialogue
      = [[("No dialogue available.".data)]] ∧
    (start_dialogue font st text cb).finish_calls = st.finish_calls ∧
    (start_dialogue font st text cb).on_finish_callback = cb := by
  have hw := wrap_text_blank font text_wrap_width text h
  simp [start_dialogue, hw]

/-- Witness for C1 (amended) at whitespace-only text. -/
theorem start_dialogue_blank_text_placeholder_witness :
    (start_dialogue sample_font init_dlg_state (" ".data) true).active = true ∧
    (start_dialogue sample_font init_dlg_state (" ".data) true).current_dialogue
      = [[("No dialogue available.".data)]] ∧
    (start_dialogue sample_font init_dlg_state (" ".data) true).finish_calls
      = init_dlg_state.finish_calls ∧
    (start_dialogue sample_font init_dlg_state (" ".data) true).on_finish_callback
      = true :=
  start_dialogue_blank_text_placeholder sample_font init_dlg_state
    (" ".data) true (by decide)

/-- **C8.** On the last page of an active session with a stored callback,
`next_line` ends the session (Active → Inactive) and invokes the callback
exactly once; a second `next_line` afterwards is a no-op that does not
invoke it again, and `end_dialogue` on the already-Inactive state is
likewise a no-op. -/
theorem advance_last_page_once (st : DlgState)
    (h1 : st.active = true)
    (h2 : st.current_dialogue.length = st.dialogue_index + 1)
    (h3 : st.on_finish_callback = true) :
    (next_line st).active = false ∧
    (next_line st).finish_calls = st.finish_calls + 1 ∧
    next_line (next_line st) = next_line st ∧
    end_dialogue (next_line st) = next_line st := by
  have hnl : next_line st = ⟨false, [], 0, false, st.finish_calls + 1⟩ := by
    simp [next_line, end_dialogue, h2, h3]
  rw [hnl]
  refine ⟨rfl, rfl, ?_, ?_⟩ <;> simp [next_line, end_dialogue]

/-- Witness for C8: a one-page active session with a stored callback. -/
theorem advance_last_page_once_witness :
    (next_line ⟨true, [[("Hello".data)]], 0, true, 0⟩).active = false ∧
    (next_line ⟨true, [[("Hello".data)]], 0, true, 0⟩).finish_calls = 0 + 1 ∧
    next_line (next_line ⟨true, [[("Hello".data)]], 0, true, 0⟩)
      = next_line ⟨true, [[("Hello".data)]], 0, true, 0⟩ ∧
    end_dialogue (next_line ⟨true, [[("Hello".data)]], 0, true, 0⟩)
      = next_line ⟨true, [[("Hello".data)]], 0, true, 0⟩ :=
  advance_last_page_once ⟨true, [[("Hello".data)]], 0, true, 0⟩ rfl rfl rfl

end GatorAI
